import Mathlib

/-!
Verification of the test-execution orchestrator in `pytorch/run_tests.py`.

The Python source is shallowly embedded: pure string processing becomes Lean
functions over `String` / `List Char`; subprocess invocations become values of
explicit result types (`SubprocResult`, `DiscoverOutcome`, `BatchStep`), since
the orchestrator only observes exit code, captured output, wall time, and
whether an exception escaped; the checkpoint file becomes an explicit
`CheckpointStore` map threaded through the batch loop.  Elapsed times are
modelled in centiseconds (`Nat`), matching the two-decimal rendering
`f"{t:.2f}s"` used everywhere by the script.
-/

namespace RunTests

/-- Relative path to the test file (`TEST_FILE_REL_PATH` in the source). -/
def TEST_FILE_REL_PATH : String := "test/inductor/test_torchinductor.py"

/-- Test outcome states (`STATE_PASSED` .. `STATE_TIMEDOUT` in the source);
each test has exactly one. -/
inductive TestState where
  | passed
  | skipped
  | error
  | failed
  | timedout
deriving DecidableEq, Repr

/-- Python `str.isspace` characters relevant here (ASCII whitespace, as used by
`\s` in the source's regexes and by `str.strip`). -/
def pyWs (c : Char) : Bool :=
  c == ' ' || c == '\t' || c == '\n' || c == '\r' ||
  c == Char.ofNat 11 || c == Char.ofNat 12

/-- `needle in hay` on character lists (Python substring containment). -/
def hasSubstr (needle : List Char) : List Char → Bool
  | [] => needle.isEmpty
  | c :: rest => needle.isPrefixOf (c :: rest) || hasSubstr needle rest

/-- Python `needle in hay` for strings. -/
def strContains (hay needle : String) : Bool :=
  hasSubstr needle.toList hay.toList

/-- `(stdout or "") + "\n" + (stderr or "")` — the combined output every
signature matcher searches. -/
def combineOutput (stdout stderr : String) : String :=
  stdout ++ "\n" ++ stderr

/-- One anchored attempt of the search `re.search(r"\d+\s+skipped", _)`:
digits (one or more), whitespace (one or more), then literal `skipped`.
The character classes are disjoint from the literal's first character, so
maximal munch is exact. -/
def numSkippedAt (l : List Char) : Bool :=
  let ds := l.takeWhile Char.isDigit
  let r1 := l.dropWhile Char.isDigit
  let ws := r1.takeWhile pyWs
  let r2 := r1.dropWhile pyWs
  !ds.isEmpty && !ws.isEmpty && "skipped".toList.isPrefixOf r2

/-- `re.search(r"\d+\s+skipped", _)`: the pattern matches at some position. -/
def searchNumSkipped : List Char → Bool
  | [] => false
  | c :: rest => numSkippedAt (c :: rest) || searchNumSkipped rest

/-- `_output_indicates_skipped`: pytest (`" SKIPPED"` substring or
`\d+\s+skipped`) or unittest (`"skipped="` and `"OK"`). -/
def outputIndicatesSkipped (stdout stderr : String) : Bool :=
  let combined := combineOutput stdout stderr
  (strContains combined " SKIPPED" || searchNumSkipped combined.toList) ||
  (strContains combined "skipped=" && strContains combined "OK")

/-- `_output_indicates_runtime_error`: `"RuntimeError"` in stdout+stderr. -/
def outputIndicatesRuntimeError (stdout stderr : String) : Bool :=
  strContains (combineOutput stdout stderr) "RuntimeError"

/-- `_output_indicates_timeout`: `"TimeoutExpired"` or `"Timeout"` in
stdout+stderr. -/
def outputIndicatesTimeout (stdout stderr : String) : Bool :=
  let combined := combineOutput stdout stderr
  strContains combined "TimeoutExpired" || strContains combined "Timeout"

/-- What the orchestrator observes of one `subprocess.run` invocation inside
`run_test`: a completed process (exit code plus captured output), a
`subprocess.TimeoutExpired` exception, or any other exception escaping the
invocation mechanism. -/
inductive SubprocResult where
  | completed (returncode : Int) (stdout stderr : String)
  | timeoutExpired
  | raised
deriving DecidableEq

/-- The tuple `run_test` returns: `(success, elapsed_time, timed_out, state)`.
`elapsed` is in centiseconds. -/
structure RunOutcome where
  success : Bool
  elapsed : Nat
  timedOut : Bool
  state : TestState
deriving DecidableEq, Repr

/-- The decision logic of `run_test` (source lines 132–199): classify one
subprocess result.  `elapsed` stands for `time.time() - start_time` measured
in the corresponding branch. -/
def runTest (res : SubprocResult) (elapsed : Nat) : RunOutcome :=
  match res with
  | .completed rc out err =>
    if rc == 0 then
      if outputIndicatesSkipped out err then
        { success := true, elapsed := elapsed, timedOut := false, state := .skipped }
      else
        { success := true, elapsed := elapsed, timedOut := false, state := .passed }
    else
      if outputIndicatesTimeout out err then
        { success := false, elapsed := elapsed, timedOut := true, state := .timedout }
      else if outputIndicatesRuntimeError out err then
        { success := false, elapsed := elapsed, timedOut := false, state := .error }
      else
        { success := false, elapsed := elapsed, timedOut := false, state := .failed }
  | .timeoutExpired =>
    { success := false, elapsed := elapsed, timedOut := true, state := .timedout }
  | .raised =>
    { success := false, elapsed := elapsed, timedOut := false, state := .error }

/-- The command list `run_test` builds (source lines 109–114). -/
def runTestCmd (byId : Bool) (testName : String) (timeout : Nat) : List String :=
  if byId then
    ["pytest", "--timeout", toString timeout, testName]
  else
    ["pytest", TEST_FILE_REL_PATH, "-k", testName, "--timeout", toString timeout]

/-- Keyword arguments of the `subprocess.run` call in `run_test`
(source lines 129–130: `run_kw = dict(env=env, capture_output=True,
text=True, cwd=...)`, with the comment "No subprocess timeout; pytest-timeout
handles per-test timeout for both modes").  `subprocess.run`'s `timeout`
parameter defaults to `None`, hence `timeout := none`. -/
structure SubprocessRunArgs where
  captureOutput : Bool
  text : Bool
  timeout : Option Nat
deriving DecidableEq

/-- The actual keyword arguments used by `run_test`. -/
def runTestSubprocessArgs : SubprocessRunArgs :=
  { captureOutput := true, text := true, timeout := none }

/-- Python `str.strip()` on a character list. -/
def trimWsChars (l : List Char) : List Char :=
  ((l.dropWhile pyWs).reverse.dropWhile pyWs).reverse

/-- Python `str.strip()`. -/
def pyStrip (s : String) : String :=
  String.mk (trimWsChars s.toList)

/-- Split a character list at newline characters (each `'\n'` ends a piece). -/
def splitOnNl : List Char → List (List Char)
  | [] => [[]]
  | '\n' :: rest => [] :: splitOnNl rest
  | c :: rest =>
    match splitOnNl rest with
    | [] => [[c]]
    | l :: ls => (c :: l) :: ls

/-- Python `str.splitlines()` for newline-separated text: split on `'\n'`,
dropping the empty piece a trailing newline would leave. -/
def splitLines (s : String) : List String :=
  let parts := (splitOnNl s.toList).map String.mk
  match parts.getLast? with
  | some "" => parts.dropLast
  | _ => parts

/-- ASCII `str.lower` on one character. -/
def asciiLower (c : Char) : Char :=
  if 'A' ≤ c ∧ c ≤ 'Z' then Char.ofNat (c.toNat + 32) else c

/-- Python `s.lower().startswith(p)` for an ASCII-lowercase pattern `p`. -/
def lowerStartsWith (l : List Char) (p : String) : Bool :=
  p.toList.isPrefixOf (l.map asciiLower)

/-- Character class `[\w/.-]` of `_NODE_ID_LINE_RE`. -/
def isNodeIdChar (c : Char) : Bool :=
  c.isAlphanum || c == '_' || c == '/' || c == '.' || c == '-'

/-- `_NODE_ID_LINE_RE.match(s)`: `^[\w/.-]+::.+$`.  `:` is not in the leading
character class, so the maximal run of class characters is the only candidate
for the `[\w/.-]+` part. -/
def nodeIdLineMatch (l : List Char) : Bool :=
  let p := l.takeWhile isNodeIdChar
  let r := l.dropWhile isNodeIdChar
  !p.isEmpty &&
    (match r with
     | ':' :: ':' :: rest => !rest.isEmpty
     | _ => false)

/-- `_parse_pytest_collect_only_quiet`: strip the combined output, split into
lines, skip blank lines and `collected ` / `running ` banners, keep lines
matching the node-id pattern (stripped). -/
def parseCollectOnlyQuiet (combinedOutput : String) : List String :=
  let lines := splitLines (pyStrip combinedOutput)
  lines.foldl
    (fun acc line =>
      let s := pyStrip line
      if s.isEmpty then acc
      else if lowerStartsWith s.toList "collected " then acc
      else if lowerStartsWith s.toList "running " then acc
      else if nodeIdLineMatch s.toList then acc ++ [s]
      else acc)
    []

/-- What the orchestrator observes of the discovery subprocess in
`discover_tests`: completion (exit code and captured output),
`subprocess.TimeoutExpired`, or any other exception. -/
inductive DiscoverOutcome where
  | completed (returncode : Int) (stdout stderr : String)
  | timedOut
  | raised
deriving DecidableEq

/-- `discover_tests` (source lines 252–281): non-zero exit, timeout, or
exception all yield the empty list; on success, parse
`stdout + "\n" + stderr` for node ids. -/
def discoverTests : DiscoverOutcome → List String
  | .completed rc out err =>
    if rc ≠ 0 then []
    else parseCollectOnlyQuiet (out ++ "\n" ++ err)
  | .timedOut => []
  | .raised => []

/-- `checkpoint_path`: the checkpoint lives beside the log file, with
`.checkpoint` appended to the log file's suffix. -/
def checkpointPath (logFilePath : String) : String :=
  logFilePath ++ ".checkpoint"

/-- The checkpoint record `write_checkpoint` serialises (minus nothing:
all keys of the JSON dict). -/
structure Checkpoint where
  last_test : Option String
  next_test : Option String
  last_index : Nat
  total : Nat
  mode : String
  csv_file : Option String
  pytorch_path : Option String
  updated : String
deriving DecidableEq, Repr

/-- The on-disk state of one checkpoint path, as `read_checkpoint`
distinguishes it: absent file, `OSError` on open/read, `JSONDecodeError`
on parse, or a valid record. -/
inductive CheckpointFile where
  | absent
  | unreadable
  | invalidJson
  | valid (cp : Checkpoint)

/-- The filesystem, restricted to checkpoint files: a map from path to file
state. -/
def CheckpointStore : Type := String → CheckpointFile

/-- `read_checkpoint`'s treatment of one file (source lines 309–318):
`OSError` and `JSONDecodeError` are caught and, like an absent file, give
`None`. -/
def readCheckpointFile : CheckpointFile → Option Checkpoint
  | .valid cp => some cp
  | _ => none

/-- `read_checkpoint(log_file_path)`. -/
def readCheckpoint (store : CheckpointStore) (logFilePath : String) : Option Checkpoint :=
  readCheckpointFile (store (checkpointPath logFilePath))

/-- `write_checkpoint` (source lines 289–306): writes the record at the
derived path; an `OSError` (`ioError = true`) is swallowed, leaving the
store unchanged. -/
def writeCheckpoint (store : CheckpointStore) (logFilePath : String)
    (lastTest nextTest : Option String) (lastIndex total : Nat) (mode : String)
    (csvFile pytorchPath : Option String) (updated : String) (ioError : Bool) :
    CheckpointStore :=
  if ioError then store
  else fun p =>
    if p = checkpointPath logFilePath then
      .valid { last_test := lastTest, next_test := nextTest, last_index := lastIndex,
               total := total, mode := mode, csv_file := csvFile,
               pytorch_path := pytorchPath, updated := updated }
    else store p

/-- `Path(checkpoint_path(...)).unlink(missing_ok=True)`. -/
def deleteCheckpoint (store : CheckpointStore) (logFilePath : String) : CheckpointStore :=
  fun p => if p = checkpointPath logFilePath then .absent else store p

/-- Render an optional string the way a Python f-string renders the value
(`None` prints as `None`). -/
def optStr : Option String → String
  | some s => s
  | none => "None"

/-- `_resolve_start_index` (source lines 417–463): returns the start index,
the console/log messages written, and the checkpoint store after any
deletions. -/
def resolveStartIndex (testNames : List String) (store : CheckpointStore)
    (logFilePath : String) (resume noCheckpoint : Bool) (notInListMsg : String) :
    Nat × List String × CheckpointStore :=
  let base : Nat × List String × CheckpointStore :=
    if resume then
      match readCheckpoint store logFilePath with
      | none =>
        (0, ["No checkpoint found, starting from first test.\n\n"], store)
      | some cp =>
        match cp.next_test with
        | none =>
          (0, ["Checkpoint shows previous run completed (no next test). Starting from first test.\n\n"],
           store)
        | some t =>
          if t ∈ testNames then
            let idx := testNames.indexOf t
            (idx,
             ["Resuming from test: " ++ t ++ " [" ++ toString (idx + 1) ++ "/" ++
              toString testNames.length ++ "]\n\n"],
             store)
          else
            (0, ["Checkpoint next_test " ++ notInListMsg ++ ", starting from first test.\n\n"],
             store)
    else if !noCheckpoint && (readCheckpoint store logFilePath).isSome then
      match readCheckpoint store logFilePath with
      | some cp =>
        (0,
         ["Checkpoint from previous run: last test = " ++ optStr cp.last_test ++
          ", next test = " ++ optStr cp.next_test ++
          ". Use --resume to continue from next test.\n\n"],
         deleteCheckpoint store logFilePath)
      | none => (0, [], store)
    else
      (0, [], store)
  if !noCheckpoint && base.1 == 0 then
    (base.1, base.2.1, deleteCheckpoint base.2.2 logFilePath)
  else
    base

/-- Render a centisecond duration the way `f"{t:.2f}"` renders the float. -/
def fmtTime (cs : Nat) : String :=
  toString (cs / 100) ++ "." ++
  (if cs % 100 < 10 then "0" ++ toString (cs % 100) else toString (cs % 100))

/-- `'='*70`, the separator rule used by headers and the summary block. -/
def sepLine : String := String.mk (List.replicate 70 '=')

/-- The `status_map` of `run_test` (source lines 158–164). -/
def statusGlyph : TestState → String
  | .passed => "✓ PASSED"
  | .skipped => "✓ SKIPPED"
  | .error => "✗ ERROR"
  | .failed => "✗ FAILED"
  | .timedout => "✗ TIMEDOUT"

/-- The per-test header `run_test` writes (source line 123). -/
def runTestLogHeader (testName : String) : String :=
  "\n" ++ sepLine ++ "\nRunning: " ++ testName ++ "\n" ++ sepLine ++ "\n"

/-- Everything `run_test` appends to the log for one invocation: the header,
then on completion the captured stdout and stderr followed by the status line;
on `TimeoutExpired` the timeout message (captured output modelled as absent);
on another exception the error message (the exception text modelled as the
empty rendering). -/
def runTestLogBlock (testName : String) (res : SubprocResult) (elapsed timeout : Nat) :
    String :=
  runTestLogHeader testName ++
  match res with
  | .completed _ out err =>
    out ++ err ++ statusGlyph (runTest res elapsed).state ++
    " (" ++ fmtTime elapsed ++ "s)\n"
  | .timeoutExpired =>
    "✗ TIMEOUT after " ++ fmtTime elapsed ++ "s (limit: " ++ toString timeout ++ "s)\n"
  | .raised =>
    "✗ ERROR: \n"

/-- One entry of the in-memory `results` list of `_run_test_batch`. -/
structure RunResult where
  name : String
  success : Bool
  time : Nat
  timed_out : Bool
  state : TestState
deriving DecidableEq, Repr

/-- What the batch controller observes of one `run_test(...)` call
(source lines 487–506): a normal return carrying the subprocess result and
elapsed time, a `subprocess.TimeoutExpired` escaping `run_test`, or any
other exception escaping it. -/
inductive BatchStep where
  | ran (res : SubprocResult) (elapsed : Nat)
  | raisedTimeout
  | raisedOther
deriving DecidableEq

/-- The arguments of `_run_test_batch` drawn from the CLI `args` object. -/
structure BatchArgs where
  perTestTimeout : Nat
  stopOnFailure : Bool
  noCheckpoint : Bool
  logFile : String
  csvFile : Option String
  pytorchPath : String

/-- The `RunResult` the batch loop appends for one index (source lines
485–510): a normal `run_test` return is recorded as-is; an escaped
`TimeoutExpired` is recorded as TIMEDOUT with elapsed = the per-test timeout;
any other escaped exception is recorded as ERROR with elapsed 0 (and
`timed_out` keeps its initialisation `False`). -/
def batchResultFor (testName : String) (step : BatchStep) (perTestTimeout : Nat) :
    RunResult :=
  match step with
  | .ran res elapsed =>
    let r := runTest res elapsed
    { name := testName, success := r.success, time := r.elapsed,
      timed_out := r.timedOut, state := r.state }
  | .raisedTimeout =>
    { name := testName, success := false, time := perTestTimeout * 100,
      timed_out := true, state := .timedout }
  | .raisedOther =>
    { name := testName, success := false, time := 0,
      timed_out := false, state := .error }

/-- One iteration of the batch loop at index `i` (source lines 478–516):
compute the result for this index and, unless checkpointing is disabled,
write the checkpoint (`next_test = test_names[i+1]` when it exists, else
null; an I/O error at this write is swallowed). -/
def batchIterate (testNames : List String) (args : BatchArgs) (mode : String)
    (beh : Nat → BatchStep) (ioErr : Nat → Bool) (updated : String)
    (i : Nat) (h : i < testNames.length) (store : CheckpointStore) :
    RunResult × CheckpointStore :=
  let testName := testNames[i]
  let r := batchResultFor testName (beh i) args.perTestTimeout
  let store' :=
    if args.noCheckpoint then store
    else
      let nextTest : Option String :=
        if h2 : i + 1 < testNames.length then some testNames[i + 1] else none
      writeCheckpoint store args.logFile (some testName) nextTest i testNames.length
        mode args.csvFile (some args.pytorchPath) updated (ioErr i)
  (r, store')

/-- The loop of `_run_test_batch` from index `i`, with explicit fuel
(`fuel = testNames.length - i` at the top-level call) so the recursion is
structural: run each test, record its result, write the checkpoint, and stop
early when the result is unsuccessful and stop-on-failure is enabled. -/
def batchLoopFuel (testNames : List String) (args : BatchArgs) (mode : String)
    (beh : Nat → BatchStep) (ioErr : Nat → Bool) (updated : String) :
    Nat → Nat → CheckpointStore → List RunResult × CheckpointStore
  | 0, _, store => ([], store)
  | fuel + 1, i, store =>
    if h : i < testNames.length then
      let p := batchIterate testNames args mode beh ioErr updated i h store
      if !p.1.success && args.stopOnFailure then ([p.1], p.2)
      else
        let q := batchLoopFuel testNames args mode beh ioErr updated fuel (i + 1) p.2
        (p.1 :: q.1, q.2)
    else ([], store)

/-- The summary block `_run_test_batch` renders (source lines 530–550):
counts per state, total time, then one `<Label> tests:` section per
nonempty state bucket with lines `  - <name> (<time>s)`. -/
def buildSummary (summaryTitle : String) (results : List RunResult)
    (totalTimeCs : Nat) : String :=
  let passed := results.countP (fun r => r.state == .passed)
  let skippedCount := results.countP (fun r => r.state == .skipped)
  let errorCount := results.countP (fun r => r.state == .error)
  let failedCount := results.countP (fun r => r.state == .failed)
  let timedoutCount := results.countP (fun r => r.state == .timedout)
  let base :=
    "\n" ++ sepLine ++ "\n" ++ summaryTitle ++ "\n" ++ sepLine ++ "\n" ++
    "Total tests run: " ++ toString results.length ++ "\n" ++
    "Passed: " ++ toString passed ++ "\n" ++
    "Skipped: " ++ toString skippedCount ++ "\n" ++
    "Error: " ++ toString errorCount ++ "\n" ++
    "Failed: " ++ toString failedCount ++ "\n" ++
    "Timed out: " ++ toString timedoutCount ++ "\n" ++
    "Total time: " ++ fmtTime totalTimeCs ++ "s\n"
  let sections :=
    [(TestState.passed, "Passed"), (TestState.skipped, "Skipped"),
     (TestState.error, "Error"), (TestState.failed, "Failed"),
     (TestState.timedout, "Timed out")].foldl
      (fun acc sl =>
        match sl with
        | (st, label) =>
          let subset := results.filter (fun r => r.state == st)
          if subset.isEmpty then acc
          else
            acc ++ "\n" ++ label ++ " tests:\n" ++
            String.join (subset.map (fun r => "  - " ++ r.name ++ " (" ++ fmtTime r.time ++ "s)\n")))
      ""
  base ++ sections ++ sepLine ++ "\n\n"

/-- The output of `_run_test_batch`: the recorded results, the checkpoint
store after the run, the rendered summary, and the returned exit code. -/
structure BatchOutput where
  results : List RunResult
  store : CheckpointStore
  summary : String
  exitCode : Nat

/-- `_run_test_batch` (source lines 466–555): run from `startIndex`, then
compute the summary and the exit code (`0` iff no ERROR, FAILED or TIMEDOUT
occurred; SKIPPED does not count against success).  `totalTimeCs` stands for
the measured wall-clock time of the whole batch. -/
def runTestBatch (testNames : List String) (startIndex : Nat) (args : BatchArgs)
    (mode : String) (beh : Nat → BatchStep) (ioErr : Nat → Bool) (updated : String)
    (summaryTitle : String) (totalTimeCs : Nat) (store : CheckpointStore) :
    BatchOutput :=
  let p := batchLoopFuel testNames args mode beh ioErr updated
    (testNames.length - startIndex) startIndex store
  let results := p.1
  let errorCount := results.countP (fun r => r.state == .error)
  let failedCount := results.countP (fun r => r.state == .failed)
  let timedoutCount := results.countP (fun r => r.state == .timedout)
  let anyBad := errorCount > 0 || failedCount > 0 || timedoutCount > 0
  { results := results, store := p.2,
    summary := buildSummary summaryTitle results totalTimeCs,
    exitCode := if anyBad then 1 else 0 }

/-- `MODE_LINE_RE.match(line.strip())`: `^Mode:\s*(full_suite|csv)\s*$`,
returning the captured mode. -/
def matchModeLine (s : String) : Option String :=
  let l := s.toList
  if "Mode:".toList.isPrefixOf l then
    let rest := (l.drop 5).dropWhile pyWs
    if "full_suite".toList.isPrefixOf rest ∧ (rest.drop 10).all pyWs then
      some "full_suite"
    else if "csv".toList.isPrefixOf rest ∧ (rest.drop 3).all pyWs then
      some "csv"
    else none
  else none

/-- The anchored tail `\s+\(\d+\.\d+s\)\s*$` of `FAILED_TEST_LINE_RE`.  Each
quantified class is followed by a character outside it, so maximal munch is
exact. -/
def elapsedTailMatch (l : List Char) : Bool :=
  let ws := l.takeWhile pyWs
  let r := l.dropWhile pyWs
  !ws.isEmpty &&
    (match r with
     | '(' :: r2 =>
       let d1 := r2.takeWhile Char.isDigit
       let r3 := r2.dropWhile Char.isDigit
       !d1.isEmpty &&
         (match r3 with
          | '.' :: r4 =>
            let d2 := r4.takeWhile Char.isDigit
            let r5 := r4.dropWhile Char.isDigit
            !d2.isEmpty &&
              (match r5 with
               | 's' :: ')' :: r6 => r6.all pyWs
               | _ => false)
          | _ => false)
     | _ => false)

/-- The lazy group `(.+?)` of `FAILED_TEST_LINE_RE`: the shortest nonempty
group after which the elapsed-time tail matches to end of line. -/
def lazyGroupSplit (acc : List Char) : List Char → Option (List Char)
  | [] => none
  | c :: rest =>
    if elapsedTailMatch rest then some (acc ++ [c])
    else lazyGroupSplit (acc ++ [c]) rest

/-- `FAILED_TEST_LINE_RE.match(line)`: `^\s+-\s+(.+?)\s+\(\d+\.\d+s\)\s*$`,
returning group 1. -/
def matchFailedTestLine (line : String) : Option String :=
  let l := line.toList
  let ws1 := l.takeWhile pyWs
  let r1 := l.dropWhile pyWs
  if ws1.isEmpty then none
  else
    match r1 with
    | '-' :: r2 =>
      let ws2 := r2.takeWhile pyWs
      let r3 := r2.dropWhile pyWs
      if ws2.isEmpty then none
      else
        match lazyGroupSplit [] r3 with
        | some g => some (String.mk g)
        | none => none
    | _ => none

/-- State of the section scan in `parse_log_for_rerun`. -/
structure RerunScan where
  inFailed : Bool
  inTimeout : Bool
  failedTests : List String
  timeoutTests : List String

/-- One line of the section scan of `parse_log_for_rerun`
(source lines 393–413). -/
def rerunScanLine (st : RerunScan) (line : String) : RerunScan :=
  let stripped := pyStrip line
  if stripped = "Failed tests:" then
    { st with inFailed := true, inTimeout := false }
  else if stripped = "Timed out tests:" then
    { st with inFailed := false, inTimeout := true }
  else if "=====".toList.isPrefixOf stripped.toList then
    { st with inFailed := false, inTimeout := false }
  else
    match matchFailedTestLine line with
    | some name =>
      if st.inFailed then { st with failedTests := st.failedTests ++ [pyStrip name] }
      else if st.inTimeout then { st with timeoutTests := st.timeoutTests ++ [pyStrip name] }
      else st
    | none => st

/-- Find the mode tag: the first line whose stripped text matches
`MODE_LINE_RE` (source lines 382–387). -/
def findModeTag : List String → Option String
  | [] => none
  | line :: rest =>
    match matchModeLine (pyStrip line) with
    | some m => some m
    | none => findModeTag rest

/-- `parse_log_for_rerun` applied to the log's text content
(source lines 364–414; the `OSError` path of the file read is outside this
function). Returns `(failed_tests, timeout_tests, mode)`. -/
def parseLogForRerun (content : String) : List String × List String × Option String :=
  let lines := splitLines content
  let mode := findModeTag lines
  let final := lines.foldl rerunScanLine
    { inFailed := false, inTimeout := false, failedTests := [], timeoutTests := [] }
  (final.failedTests, final.timeoutTests, mode)

/-- The outcome of the full-suite branch of `main` (source lines 728–789),
as far as the orchestrator's own decisions go: the exit code passed to
`sys.exit`, the notices written, and the batch output when a batch ran. -/
structure FullSuiteOutcome where
  exitCode : Nat
  notices : List String
  results : List RunResult

/-- The full-suite branch of `main` after discovery (source lines 739–789):
an empty discovered list leaves `exit_code` at its initialisation `1`
(source line 691: `exit_code = 1  # default if we never run the batch`) and
writes the no-tests notice; with a regex filter, an empty filtered list sets
`exit_code = 0`; otherwise the batch runs after resume resolution. -/
def mainFullSuite (discovered : List String) (regexFilter : Option (String → Bool))
    (args : BatchArgs) (resume : Bool) (beh : Nat → BatchStep) (ioErr : Nat → Bool)
    (updated : String) (totalTimeCs : Nat) (store : CheckpointStore) :
    FullSuiteOutcome :=
  if discovered.isEmpty then
    { exitCode := 1,
      notices := ["No tests discovered. Check that pytest can collect from the test file.\n"],
      results := [] }
  else
    let runFiltered : List String → FullSuiteOutcome := fun testNames =>
      let rs := resolveStartIndex testNames store args.logFile resume args.noCheckpoint
        "not in discovered list"
      let out := runTestBatch testNames rs.1 args "full_suite" beh ioErr updated
        "TEST SUMMARY (full suite)" totalTimeCs rs.2.2
      { exitCode := out.exitCode, notices := rs.2.1, results := out.results }
    match regexFilter with
    | some p =>
      let filtered := discovered.filter p
      if filtered.isEmpty then
        { exitCode := 0, notices := ["No tests match the regex. Nothing to run.\n"],
          results := [] }
      else runFiltered filtered
    | none => runFiltered discovered

/-- A concrete three-test run for the log round-trip: one passing test, the
FAILED identifier `foo` at 1.23s, the TIMEDOUT identifier `bar` at 300.00s. -/
def sampleRunNames : List String := ["t_ok", "foo", "bar"]

/-- Subprocess behaviour of the sample run: `t_ok` exits 0, `foo` exits 1
with an assertion failure, `bar` exits 1 with a pytest-timeout signature. -/
def sampleRunBeh : Nat → BatchStep
  | 0 => .ran (.completed 0 "1 passed\n" "") 45
  | 1 => .ran (.completed 1 "AssertionError in test\n" "") 123
  | _ => .ran (.completed 1 "Timeout (300s) from pytest-timeout\n" "") 30000

/-- CLI arguments of the sample run. -/
def sampleRunArgs : BatchArgs :=
  { perTestTimeout := 300, stopOnFailure := false, noCheckpoint := true,
    logFile := "run.log", csvFile := none, pytorchPath := "/pt" }

/-- The batch output of the sample run under the given mode tag. -/
def sampleRunBatch (mode : String) : BatchOutput :=
  runTestBatch sampleRunNames 0 sampleRunArgs mode sampleRunBeh (fun _ => false) ""
    "TEST SUMMARY (full suite)" 30168 (fun _ => CheckpointFile.absent)

/-- The full log text of the sample run, assembled exactly as `main`,
`_run_test_batch` and `run_test` write it: header, mode line, count message,
one progress marker and execution block per test, then the summary block. -/
def sampleRunLog (mode : String) : String :=
  "PyTorch path: /pt\nLogging to: run.log\n\n" ++
  "Mode: " ++ mode ++ "\n" ++
  "Found 3 test(s). Per-test timeout: 300s\n\n" ++
  "[1/3] " ++ runTestLogBlock "t_ok" (.completed 0 "1 passed\n" "") 45 300 ++
  "[2/3] " ++ runTestLogBlock "foo" (.completed 1 "AssertionError in test\n" "") 123 300 ++
  "[3/3] " ++ runTestLogBlock "bar" (.completed 1 "Timeout (300s) from pytest-timeout\n" "") 30000 300 ++
  (sampleRunBatch mode).summary

/-! ## Helper lemmas -/

/-- On every path out of `run_test`, the returned success flag is true exactly
when the returned state is PASSED or SKIPPED. -/
theorem runTest_success_iff (res : SubprocResult) (e : Nat) :
    (runTest res e).success = true ↔
      ((runTest res e).state = .passed ∨ (runTest res e).state = .skipped) := by
  cases res with
  | completed rc out err =>
    simp only [runTest]
    split_ifs <;> simp
  | timeoutExpired => simp [runTest]
  | raised => simp [runTest]

/-- The batch loop records each result under the identifier it ran. -/
theorem batchResultFor_name (name : String) (step : BatchStep) (pt : Nat) :
    (batchResultFor name step pt).name = name := by
  cases step <;> simp [batchResultFor]

/-- The success flag/state invariant also holds for the results the batch
controller fabricates on its own exception-recovery paths. -/
theorem batchResultFor_success_iff (name : String) (step : BatchStep) (pt : Nat) :
    (batchResultFor name step pt).success = true ↔
      ((batchResultFor name step pt).state = .passed ∨
       (batchResultFor name step pt).state = .skipped) := by
  cases step with
  | ran res e =>
    simp only [batchResultFor]
    exact runTest_success_iff res e
  | raisedTimeout => simp [batchResultFor]
  | raisedOther => simp [batchResultFor]

/-- Unfolding: the result component of one batch iteration. -/
theorem batchIterate_fst (testNames : List String) (args : BatchArgs) (mode : String)
    (beh : Nat → BatchStep) (ioErr : Nat → Bool) (updated : String)
    (i : Nat) (h : i < testNames.length) (store : CheckpointStore) :
    (batchIterate testNames args mode beh ioErr updated i h store).1 =
      batchResultFor testNames[i] (beh i) args.perTestTimeout := rfl

/-- Unfolding: the loop when the current result stops the run. -/
theorem batchLoopFuel_succ_of_stop (testNames : List String) (args : BatchArgs)
    (mode : String) (beh : Nat → BatchStep) (ioErr : Nat → Bool) (updated : String)
    (n i : Nat) (store : CheckpointStore) (h : i < testNames.length)
    (hs : (!(batchIterate testNames args mode beh ioErr updated i h store).1.success
        && args.stopOnFailure) = true) :
    batchLoopFuel testNames args mode beh ioErr updated (n + 1) i store =
      ([(batchIterate testNames args mode beh ioErr updated i h store).1],
       (batchIterate testNames args mode beh ioErr updated i h store).2) := by
  simp only [batchLoopFuel, dif_pos h, hs, if_true]

/-- Unfolding: the loop when the current result does not stop the run. -/
theorem batchLoopFuel_succ_of_cont (testNames : List String) (args : BatchArgs)
    (mode : String) (beh : Nat → BatchStep) (ioErr : Nat → Bool) (updated : String)
    (n i : Nat) (store : CheckpointStore) (h : i < testNames.length)
    (hs : (!(batchIterate testNames args mode beh ioErr updated i h store).1.success
        && args.stopOnFailure) = false) :
    batchLoopFuel testNames args mode beh ioErr updated (n + 1) i store =
      ((batchIterate testNames args mode beh ioErr updated i h store).1 ::
        (batchLoopFuel testNames args mode beh ioErr updated n (i + 1)
          (batchIterate testNames args mode beh ioErr updated i h store).2).1,
       (batchLoopFuel testNames args mode beh ioErr updated n (i + 1)
          (batchIterate testNames args mode beh ioErr updated i h store).2).2) := by
  simp only [batchLoopFuel, dif_pos h, hs, Bool.false_eq_true, if_false]

/-- Every result the batch loop records is the record of one executed index. -/
theorem batchLoopFuel_mem (testNames : List String) (args : BatchArgs) (mode : String)
    (beh : Nat → BatchStep) (ioErr : Nat → Bool) (updated : String) :
    ∀ (fuel i : Nat) (store : CheckpointStore) (r : RunResult),
      r ∈ (batchLoopFuel testNames args mode beh ioErr updated fuel i store).1 →
      ∃ (j : Nat) (h : j < testNames.length),
        r = batchResultFor testNames[j] (beh j) args.perTestTimeout := by
  intro fuel
  induction fuel with
  | zero =>
    intro i store r hr
    simp [batchLoopFuel] at hr
  | succ n ih =>
    intro i store r hr
    by_cases h : i < testNames.length
    · simp only [batchLoopFuel, dif_pos h] at hr
      by_cases hs : !(batchIterate testNames args mode beh ioErr updated i h store).1.success
          && args.stopOnFailure
      · simp only [hs, if_pos] at hr
        simp at hr
        exact ⟨i, h, hr⟩
      · simp only [hs, if_neg, Bool.false_eq_true, not_false_iff, List.mem_cons] at hr
        rcases hr with hr | hr
        · exact ⟨i, h, hr⟩
        · exact ih (i + 1) _ r hr
    · simp [batchLoopFuel, dif_neg h] at hr

set_option maxRecDepth 8000 in
/-- The names of the recorded results form a slice of the identifier list
from the start index: each executed identifier occurrence is recorded
exactly once, in order. -/
theorem batchLoopFuel_names_slice (testNames : List String) (args : BatchArgs)
    (mode : String) (beh : Nat → BatchStep) (ioErr : Nat → Bool) (updated : String) :
    ∀ (fuel i : Nat) (store : CheckpointStore),
      ∃ k, (batchLoopFuel testNames args mode beh ioErr updated fuel i store).1.map
            (fun r => r.name) = (testNames.drop i).take k := by
  intro fuel
  induction fuel with
  | zero =>
    intro i store
    exact ⟨0, by simp [batchLoopFuel]⟩
  | succ n ih =>
    intro i store
    by_cases h : i < testNames.length
    · have hdrop : testNames.drop i = testNames[i] :: testNames.drop (i + 1) :=
        List.drop_eq_getElem_cons h
      have hfst : (batchIterate testNames args mode beh ioErr updated i h store).1.name =
          testNames[i] := by
        rw [batchIterate_fst, batchResultFor_name]
      by_cases hs : (!(batchIterate testNames args mode beh ioErr updated i h store).1.success
          && args.stopOnFailure) = true
      · refine ⟨1, ?_⟩
        rw [batchLoopFuel_succ_of_stop testNames args mode beh ioErr updated n i store h hs]
        simp only [List.map_cons, List.map_nil, hfst]
        rw [hdrop, List.take_succ_cons, List.take_zero]
      · have hs' := Bool.eq_false_iff.mpr hs
        obtain ⟨k, hk⟩ := ih (i + 1)
          (batchIterate testNames args mode beh ioErr updated i h store).2
        refine ⟨k + 1, ?_⟩
        rw [batchLoopFuel_succ_of_cont testNames args mode beh ioErr updated n i store h hs']
        simp only [List.map_cons, hfst, hk]
        rw [hdrop, List.take_succ_cons]
    · exact ⟨0, by simp [batchLoopFuel, dif_neg h]⟩

/-- Without stop-on-failure the loop never breaks: it records one result per
index from `i` to the end (given enough fuel). -/
theorem batchLoopFuel_length_no_stop (testNames : List String) (args : BatchArgs)
    (mode : String) (beh : Nat → BatchStep) (ioErr : Nat → Bool) (updated : String)
    (hstop : args.stopOnFailure = false) :
    ∀ (fuel i : Nat) (store : CheckpointStore),
      (batchLoopFuel testNames args mode beh ioErr updated fuel i store).1.length =
        min fuel (testNames.length - i) := by
  intro fuel
  induction fuel with
  | zero =>
    intro i store
    simp [batchLoopFuel]
  | succ n ih =>
    intro i store
    by_cases h : i < testNames.length
    · simp only [batchLoopFuel, dif_pos h, hstop, Bool.and_false, Bool.false_eq_true,
        if_neg, not_false_iff]
      simp only [List.length_cons, ih]
      omega
    · simp only [batchLoopFuel, dif_neg h, List.length_nil]
      omega

/-! ## Claims -/

/-- C1: for every completed subprocess invocation, `run_test` assigns the
outcome in this decision order: non-zero exit with a timeout signature in
the combined stdout+stderr yields TIMEDOUT; non-zero exit with a
runtime-error signature and no timeout signature yields ERROR; any other
non-zero exit yields FAILED; zero exit with a skip signature (e.g. stdout
containing "3 skipped") yields SKIPPED; any other zero exit yields PASSED;
when both timeout and runtime-error signatures are present on a non-zero
exit, the outcome is TIMEDOUT. -/
theorem C1_classification_order :
    (∀ (rc : Int) (out err : String) (e : Nat), rc ≠ 0 →
        outputIndicatesTimeout out err = true →
        (runTest (.completed rc out err) e).state = .timedout)
    ∧ (∀ (rc : Int) (out err : String) (e : Nat), rc ≠ 0 →
        outputIndicatesTimeout out err = false →
        outputIndicatesRuntimeError out err = true →
        (runTest (.completed rc out err) e).state = .error)
    ∧ (∀ (rc : Int) (out err : String) (e : Nat), rc ≠ 0 →
        outputIndicatesTimeout out err = false →
        outputIndicatesRuntimeError out err = false →
        (runTest (.completed rc out err) e).state = .failed)
    ∧ (∀ (out err : String) (e : Nat), outputIndicatesSkipped out err = true →
        (runTest (.completed 0 out err) e).state = .skipped)
    ∧ (∀ (out err : String) (e : Nat), outputIndicatesSkipped out err = false →
        (runTest (.completed 0 out err) e).state = .passed)
    ∧ (∀ (rc : Int) (out err : String) (e : Nat), rc ≠ 0 →
        outputIndicatesTimeout out err = true →
        outputIndicatesRuntimeError out err = true →
        (runTest (.completed rc out err) e).state = .timedout)
    ∧ (runTest (.completed 0 "3 skipped" "") 0).state = .skipped := by
  have brc : ∀ rc : Int, rc ≠ 0 → (rc == 0) = false := fun rc h => by
    simpa using h
  refine ⟨?_, ?_, ?_, ?_, ?_, ?_, ?_⟩
  · intro rc out err e h ht
    simp [runTest, brc rc h, ht]
  · intro rc out err e h ht hr
    simp [runTest, brc rc h, ht, hr]
  · intro rc out err e h ht hr
    simp [runTest, brc rc h, ht, hr]
  · intro out err e hs
    simp [runTest, hs]
  · intro out err e hs
    simp [runTest, hs]
  · intro rc out err e h ht _
    simp [runTest, brc rc h, ht]
  · decide

/-- Witness for C1 at concrete inputs, one per decision branch. -/
theorem C1_classification_order_witness :
    (runTest (.completed 1 "Timeout RuntimeError" "") 7).state = .timedout
    ∧ (runTest (.completed 1 "RuntimeError: boom" "") 8).state = .error
    ∧ (runTest (.completed 1 "assert failed" "") 9).state = .failed
    ∧ (runTest (.completed 0 "OK (skipped=1)" "") 10).state = .skipped
    ∧ (runTest (.completed 0 "1 passed" "") 11).state = .passed :=
  ⟨C1_classification_order.1 1 "Timeout RuntimeError" "" 7 (by decide) (by decide),
   C1_classification_order.2.1 1 "RuntimeError: boom" "" 8 (by decide) (by decide) (by decide),
   C1_classification_order.2.2.1 1 "assert failed" "" 9 (by decide) (by decide) (by decide),
   C1_classification_order.2.2.2.1 "OK (skipped=1)" "" 10 (by decide),
   C1_classification_order.2.2.2.2.1 "1 passed" "" 11 (by decide)⟩

/-- C2 counterexample: the claim asserts the orchestrator bounds the
subprocess wait with the per-test timeout (a hard kill).  It does not: the
`subprocess.run` call of `run_test` is made with no `timeout` keyword
(source lines 129–130), so for the default 300-second budget the wait bound
the claim asserts is absent. -/
theorem C2_no_subprocess_wait_bound :
    runTestSubprocessArgs.timeout = none ∧ runTestSubprocessArgs.timeout ≠ some 300 := by
  decide

/-- C2 (amended): the per-test timeout is enforced at one layer only — the
cooperative `--timeout` flag passed to the invoked pytest process; the
orchestrator's own subprocess wait is unbounded (`timeout = None`), though a
defensive `TimeoutExpired` handler remains, and on every timeout path the
recorded outcome is TIMEDOUT and never FAILED. -/
theorem C2_cooperative_timeout_layer :
    (∀ (name : String) (t : Nat),
        runTestCmd true name t = ["pytest", "--timeout", toString t, name])
    ∧ (∀ (name : String) (t : Nat),
        runTestCmd false name t =
          ["pytest", TEST_FILE_REL_PATH, "-k", name, "--timeout", toString t])
    ∧ runTestSubprocessArgs.timeout = none
    ∧ (∀ e : Nat, runTest .timeoutExpired e =
        { success := false, elapsed := e, timedOut := true, state := .timedout })
    ∧ (∀ (rc : Int) (out err : String) (e : Nat), rc ≠ 0 →
        outputIndicatesTimeout out err = true →
        (runTest (.completed rc out err) e).state = .timedout ∧
          (runTest (.completed rc out err) e).state ≠ .failed) := by
  refine ⟨fun name t => rfl, fun name t => rfl, rfl, fun e => rfl, ?_⟩
  intro rc out err e h ht
  have brc : (rc == 0) = false := by simpa using h
  constructor <;> simp [runTest, brc, ht]

/-- Witness for C2 (amended) at concrete inputs. -/
theorem C2_cooperative_timeout_layer_witness :
    (runTest (.completed 2 "pytest-timeout: Timeout >300.0s" "") 42).state = .timedout ∧
    (runTest (.completed 2 "pytest-timeout: Timeout >300.0s" "") 42).state ≠ .failed :=
  C2_cooperative_timeout_layer.2.2.2.2 2 "pytest-timeout: Timeout >300.0s" "" 42
    (by decide) (by decide)

/-- C3 counterexample: with full-suite discovery yielding zero identifiers,
the claim asserts the process exit status is 0; the code leaves `exit_code`
at its initialisation `1` (source line 691) on this path, so `sys.exit`
receives 1. -/
theorem C3_empty_discovery_nonzero_exit :
    (mainFullSuite [] none
        { perTestTimeout := 300, stopOnFailure := false, noCheckpoint := false,
          logFile := "run.log", csvFile := none, pytorchPath := "/pt" }
        false (fun _ => .ran (.completed 0 "" "") 0) (fun _ => false) "" 0
        (fun _ => .absent)).exitCode ≠ 0 := by
  decide

/-- C3 (amended): when full-suite discovery fails (non-zero exit of the
discovery command, discovery timeout or exception, or zero identifiers
parsed), the run is treated as a no-op without raising: an explicit notice
is emitted and no test is executed, but the process exit status is 1 (the
initialisation value used when no batch runs), not 0. -/
theorem C3_discovery_failure_noop :
    (∀ (rc : Int) (out err : String), rc ≠ 0 → discoverTests (.completed rc out err) = [])
    ∧ discoverTests .timedOut = []
    ∧ discoverTests .raised = []
    ∧ (∀ (regexFilter : Option (String → Bool)) (args : BatchArgs) (resume : Bool)
        (beh : Nat → BatchStep) (ioErr : Nat → Bool) (updated : String) (t : Nat)
        (store : CheckpointStore),
        mainFullSuite [] regexFilter args resume beh ioErr updated t store =
          { exitCode := 1,
            notices := ["No tests discovered. Check that pytest can collect from the test file.\n"],
            results := [] }) := by
  refine ⟨?_, rfl, rfl, fun _ _ _ _ _ _ _ _ => rfl⟩
  intro rc out err h
  simp [discoverTests, h]

/-- Witness for C3 (amended) at concrete inputs. -/
theorem C3_discovery_failure_noop_witness :
    discoverTests (.completed 2 "boom" "collection error") = [] ∧
    mainFullSuite [] none
        { perTestTimeout := 300, stopOnFailure := false, noCheckpoint := false,
          logFile := "run.log", csvFile := none, pytorchPath := "/pt" }
        false (fun _ => .ran (.completed 0 "" "") 0) (fun _ => false) "" 0
        (fun _ => .absent) =
      { exitCode := 1,
        notices := ["No tests discovered. Check that pytest can collect from the test file.\n"],
        results := [] } :=
  ⟨C3_discovery_failure_noop.1 2 "boom" "collection error" (by decide),
   C3_discovery_failure_noop.2.2.2 none _ false _ _ "" 0 _⟩

/-- C4: for every identifier executed in a run, exactly one outcome is
recorded in the results sequence (the recorded names form a slice of the
identifier list, one record per executed index, in order), and the recorded
success flag is true iff the outcome is PASSED or SKIPPED — on every path
out of `run_test` and on the batch controller's exception-recovery paths. -/
theorem C4_success_iff_passed_or_skipped (testNames : List String) (startIndex : Nat)
    (args : BatchArgs) (mode : String) (beh : Nat → BatchStep) (ioErr : Nat → Bool)
    (updated summaryTitle : String) (t : Nat) (store : CheckpointStore) :
    (∀ (res : SubprocResult) (e : Nat),
        (runTest res e).success = true ↔
          ((runTest res e).state = .passed ∨ (runTest res e).state = .skipped))
    ∧ (∀ r, r ∈ (runTestBatch testNames startIndex args mode beh ioErr updated
          summaryTitle t store).results →
        (r.success = true ↔ (r.state = .passed ∨ r.state = .skipped)))
    ∧ (∃ k, (runTestBatch testNames startIndex args mode beh ioErr updated
          summaryTitle t store).results.map (fun r => r.name) =
        (testNames.drop startIndex).take k) := by
  refine ⟨runTest_success_iff, ?_, ?_⟩
  · intro r hr
    obtain ⟨j, hj, rfl⟩ := batchLoopFuel_mem testNames args mode beh ioErr updated
      (testNames.length - startIndex) startIndex store r hr
    exact batchResultFor_success_iff _ _ _
  · exact batchLoopFuel_names_slice testNames args mode beh ioErr updated
      (testNames.length - startIndex) startIndex store

/-- Witness for C4 at a concrete input: a one-test run whose invocation
raises; the recorded ERROR result has success false. -/
theorem C4_success_iff_passed_or_skipped_witness :
    (batchResultFor "t" BatchStep.raisedOther 300).success = true ↔
      ((batchResultFor "t" BatchStep.raisedOther 300).state = .passed ∨
       (batchResultFor "t" BatchStep.raisedOther 300).state = .skipped) :=
  (C4_success_iff_passed_or_skipped ["t"] 0
      { perTestTimeout := 300, stopOnFailure := false, noCheckpoint := true,
        logFile := "run.log", csvFile := none, pytorchPath := "/pt" }
      "csv" (fun _ => .raisedOther) (fun _ => false) "" "TEST SUMMARY" 0
      (fun _ => .absent)).2.1
    (batchResultFor "t" BatchStep.raisedOther 300) (by decide)

set_option maxRecDepth 10000 in
/-- C5: log round-trip — for the sample run whose summary lists FAILED
identifier `foo (1.23s)` and TIMEDOUT identifier `bar (300.00s)`, parsing
the very log the run wrote yields `failed = ["foo"]`, `timedout = ["bar"]`,
and the mode tag originally written into the log header. -/
theorem C5_log_round_trip (mode : String) (h : mode = "csv" ∨ mode = "full_suite") :
    parseLogForRerun (sampleRunLog mode) = (["foo"], ["bar"], some mode) := by
  rcases h with h | h <;> subst h <;> decide

set_option maxRecDepth 10000 in
/-- Witness for C5 at the concrete mode tag `csv`. -/
theorem C5_log_round_trip_witness :
    parseLogForRerun (sampleRunLog "csv") = (["foo"], ["bar"], some "csv") :=
  C5_log_round_trip "csv" (Or.inl rfl)

/-- C6: resume start-index resolution — with resume enabled: no checkpoint,
or a checkpoint whose `next_test` is null, starts at index 0; a `next_test`
found in the current list (exact string equality) starts at its (first)
index; a `next_test` not in the list starts at index 0 after emitting a
warning; and the resolution is total (never fails hard). -/
theorem C6_resume_start_index (testNames : List String) (store : CheckpointStore)
    (logFilePath : String) (noCheckpoint : Bool) (notInListMsg : String) :
    (readCheckpoint store logFilePath = none →
      (resolveStartIndex testNames store logFilePath true noCheckpoint notInListMsg).1 = 0)
    ∧ (∀ cp : Checkpoint, readCheckpoint store logFilePath = some cp →
        cp.next_test = none →
      (resolveStartIndex testNames store logFilePath true noCheckpoint notInListMsg).1 = 0)
    ∧ (∀ (cp : Checkpoint) (nt : String), readCheckpoint store logFilePath = some cp →
        cp.next_test = some nt → nt ∈ testNames →
      (resolveStartIndex testNames store logFilePath true noCheckpoint notInListMsg).1 =
        testNames.indexOf nt)
    ∧ (∀ (cp : Checkpoint) (nt : String), readCheckpoint store logFilePath = some cp →
        cp.next_test = some nt → nt ∉ testNames →
      (resolveStartIndex testNames store logFilePath true noCheckpoint notInListMsg).1 = 0
      ∧ ("Checkpoint next_test " ++ notInListMsg ++ ", starting from first test.\n\n") ∈
        (resolveStartIndex testNames store logFilePath true noCheckpoint notInListMsg).2.1) := by
  refine ⟨?_, ?_, ?_, ?_⟩
  · intro h
    simp [resolveStartIndex, h]
    split <;> rfl
  · intro cp h hn
    simp [resolveStartIndex, h, hn]
    split <;> rfl
  · intro cp nt h hn ht
    simp [resolveStartIndex, h, hn, ht]
    split <;> rfl
  · intro cp nt h hn ht
    constructor
    · simp [resolveStartIndex, h, hn, ht]
      split <;> rfl
    · simp [resolveStartIndex, h, hn, ht]
      split <;> simp

/-- Witness for C6 at a concrete checkpoint: resuming a two-test list from
`next_test = "b"` starts at its index. -/
theorem C6_resume_start_index_witness :
    (resolveStartIndex ["a", "b"]
        (fun _ => CheckpointFile.valid
          { last_test := some "a", next_test := some "b", last_index := 0, total := 2,
            mode := "csv", csv_file := none, pytorch_path := some "/pt", updated := "" })
        "run.log" true false "not in CSV list").1 = ["a", "b"].indexOf "b" :=
  (C6_resume_start_index ["a", "b"]
      (fun _ => CheckpointFile.valid
        { last_test := some "a", next_test := some "b", last_index := 0, total := 2,
          mode := "csv", csv_file := none, pytorch_path := some "/pt", updated := "" })
      "run.log" false "not in CSV list").2.2.1
    { last_test := some "a", next_test := some "b", last_index := 0, total := 2,
      mode := "csv", csv_file := none, pytorch_path := some "/pt", updated := "" }
    "b" rfl rfl (by decide)

/-- C7: checkpoint round-trip — with checkpointing enabled and no I/O error
on the write, after the batch controller processes the test at index `i` of
`N` identifiers, reading the checkpoint for the same log file yields
`last_index = i`, `last_test = identifiers[i]`, `total = N`, the run's mode,
and `next_test = identifiers[i+1]` when `i+1 < N`, null exactly when `i` is
the last index. -/
theorem C7_checkpoint_round_trip (testNames : List String) (args : BatchArgs)
    (mode : String) (beh : Nat → BatchStep) (ioErr : Nat → Bool) (updated : String)
    (i : Nat) (h : i < testNames.length) (store : CheckpointStore)
    (hnc : args.noCheckpoint = false) (hio : ioErr i = false) :
    readCheckpoint (batchIterate testNames args mode beh ioErr updated i h store).2
        args.logFile =
      some { last_test := some testNames[i], next_test := testNames[i + 1]?,
             last_index := i, total := testNames.length, mode := mode,
             csv_file := args.csvFile, pytorch_path := some args.pytorchPath,
             updated := updated }
    ∧ (∀ h2 : i + 1 < testNames.length, testNames[i + 1]? = some testNames[i + 1])
    ∧ (testNames[i + 1]? = none ↔ i = testNames.length - 1) := by
  refine ⟨?_, fun h2 => List.getElem?_eq_getElem h2, ?_⟩
  · have hnext : (if h2 : i + 1 < testNames.length then some testNames[i + 1] else none) =
        testNames[i + 1]? := by
      by_cases h2 : i + 1 < testNames.length
      · rw [dif_pos h2, List.getElem?_eq_getElem h2]
      · rw [dif_neg h2, eq_comm]
        exact List.getElem?_eq_none (by omega)
    simp [batchIterate, hnc, hio, writeCheckpoint, readCheckpoint, readCheckpointFile,
      hnext]
  · rw [List.getElem?_eq_none_iff]
    omega

/-- Witness for C7 at a concrete two-test run, at index 0. -/
theorem C7_checkpoint_round_trip_witness :
    readCheckpoint
        (batchIterate ["a", "b"]
          { perTestTimeout := 300, stopOnFailure := false, noCheckpoint := false,
            logFile := "run.log", csvFile := none, pytorchPath := "/pt" }
          "csv" (fun _ => .raisedOther) (fun _ => false) "ts" 0 (by decide)
          (fun _ => .absent)).2 "run.log" =
      some { last_test := some "a", next_test := some "b", last_index := 0, total := 2,
             mode := "csv", csv_file := none, pytorch_path := some "/pt",
             updated := "ts" } := by
  have h := (C7_checkpoint_round_trip ["a", "b"]
    { perTestTimeout := 300, stopOnFailure := false, noCheckpoint := false,
      logFile := "run.log", csvFile := none, pytorchPath := "/pt" }
    "csv" (fun _ => .raisedOther) (fun _ => false) "ts" 0 (by decide)
    (fun _ => .absent) rfl rfl).1
  simpa using h

/-- C8: stop-on-failure — for any list of 5 identifiers whose tests at
indices 0 and 1 succeed and whose test at index 2 yields a non-success
outcome, with stop-on-failure enabled: exactly 3 results are recorded, their
names are the identifiers at indices 0–2, and the run's outcome does not
depend on the behaviour of indices 3–4 (they are never executed and appear
in no bucket of the summary). -/
theorem C8_stop_on_failure (testNames : List String) (h5 : testNames.length = 5)
    (args : BatchArgs) (mode : String) (beh : Nat → BatchStep) (ioErr : Nat → Bool)
    (updated summaryTitle : String) (t : Nat) (store : CheckpointStore)
    (hstop : args.stopOnFailure = true)
    (h0 : (batchResultFor (testNames.getD 0 "") (beh 0) args.perTestTimeout).success = true)
    (h1 : (batchResultFor (testNames.getD 1 "") (beh 1) args.perTestTimeout).success = true)
    (h2 : (batchResultFor (testNames.getD 2 "") (beh 2) args.perTestTimeout).success = false) :
    (runTestBatch testNames 0 args mode beh ioErr updated summaryTitle t
        store).results.length = 3
    ∧ (runTestBatch testNames 0 args mode beh ioErr updated summaryTitle t
        store).results.map (fun r => r.name) = testNames.take 3
    ∧ (∀ (beh' : Nat → BatchStep) (ioErr' : Nat → Bool),
        (∀ j, j < 3 → beh' j = beh j) → (∀ j, j < 3 → ioErr' j = ioErr j) →
        (runTestBatch testNames 0 args mode beh' ioErr' updated summaryTitle t
            store).results =
          (runTestBatch testNames 0 args mode beh ioErr updated summaryTitle t
            store).results) := by
  obtain ⟨a, b, c, d, e, rfl⟩ : ∃ a b c d e, testNames = [a, b, c, d, e] := by
    rcases testNames with _ | ⟨a, _ | ⟨b, _ | ⟨c, _ | ⟨d, _ | ⟨e, rest⟩⟩⟩⟩⟩ <;> simp_all
  refine ⟨?_, ?_, ?_⟩
  · simp_all [runTestBatch, batchLoopFuel, batchIterate]
  · simp_all [runTestBatch, batchLoopFuel, batchIterate, batchResultFor_name]
  · intro beh' ioErr' hb hi
    have e0 := hb 0 (by omega)
    have e1 := hb 1 (by omega)
    have e2 := hb 2 (by omega)
    simp_all [runTestBatch, batchLoopFuel, batchIterate]

/-- Witness for C8 at a concrete run: five tests, index 2 exits 1. -/
theorem C8_stop_on_failure_witness :
    (runTestBatch ["a", "b", "c", "d", "e"] 0
        { perTestTimeout := 300, stopOnFailure := true, noCheckpoint := true,
          logFile := "run.log", csvFile := none, pytorchPath := "/pt" }
        "csv"
        (fun j => if j == 2 then .ran (.completed 1 "boom" "") 10
                  else .ran (.completed 0 "1 passed" "") 10)
        (fun _ => false) "" "TEST SUMMARY" 0 (fun _ => .absent)).results.length = 3 :=
  (C8_stop_on_failure ["a", "b", "c", "d", "e"] (by decide)
    { perTestTimeout := 300, stopOnFailure := true, noCheckpoint := true,
      logFile := "run.log", csvFile := none, pytorchPath := "/pt" }
    "csv"
    (fun j => if j == 2 then .ran (.completed 1 "boom" "") 10
              else .ran (.completed 0 "1 passed" "") 10)
    (fun _ => false) "" "TEST SUMMARY" 0 (fun _ => .absent)
    rfl (by decide) (by decide) (by decide)).1

/-- C9: an exception escaping the subprocess launch mechanism (not a timeout,
not a normal non-zero exit) is caught: `run_test` returns normally with
outcome ERROR and the elapsed time measured up to the failure, and the batch
controller records it and continues with all remaining identifiers. -/
theorem C9_invocation_failure_error (testNames : List String) (startIndex : Nat)
    (args : BatchArgs) (mode : String) (beh : Nat → BatchStep) (ioErr : Nat → Bool)
    (updated summaryTitle : String) (t : Nat) (store : CheckpointStore)
    (hstop : args.stopOnFailure = false) :
    (∀ e : Nat, runTest .raised e =
      { success := false, elapsed := e, timedOut := false, state := .error })
    ∧ (∀ (name : String) (pt : Nat), batchResultFor name .raisedOther pt =
      { name := name, success := false, time := 0, timed_out := false, state := .error })
    ∧ (runTestBatch testNames startIndex args mode beh ioErr updated summaryTitle t
        store).results.length = testNames.length - startIndex := by
  refine ⟨fun e => rfl, fun name pt => rfl, ?_⟩
  have h := batchLoopFuel_length_no_stop testNames args mode beh ioErr updated hstop
    (testNames.length - startIndex) startIndex store
  simpa using h

/-- Witness for C9: a two-test run where every invocation raises still
records both results. -/
theorem C9_invocation_failure_error_witness :
    (runTestBatch ["x", "y"] 0
        { perTestTimeout := 300, stopOnFailure := false, noCheckpoint := true,
          logFile := "run.log", csvFile := none, pytorchPath := "/pt" }
        "csv" (fun _ => .raisedOther) (fun _ => false) "" "TEST SUMMARY" 0
        (fun _ => .absent)).results.length = 2 :=
  (C9_invocation_failure_error ["x", "y"] 0
    { perTestTimeout := 300, stopOnFailure := false, noCheckpoint := true,
      logFile := "run.log", csvFile := none, pytorchPath := "/pt" }
    "csv" (fun _ => .raisedOther) (fun _ => false) "" "TEST SUMMARY" 0
    (fun _ => .absent) rfl).2.2

/-- C10: an unreadable or corrupt checkpoint file (I/O error on open, or
invalid JSON content) is treated identically to an absent checkpoint:
`read_checkpoint` returns None without raising, so a resume attempt starts
the run at index 0 (with the same no-checkpoint message as an absent file). -/
theorem C10_corrupt_checkpoint_like_absent :
    readCheckpointFile .unreadable = none
    ∧ readCheckpointFile .invalidJson = none
    ∧ readCheckpointFile .absent = none
    ∧ (∀ (testNames : List String) (store : CheckpointStore) (logFilePath : String)
        (noCheckpoint : Bool) (msg : String),
        (store (checkpointPath logFilePath) = .unreadable ∨
         store (checkpointPath logFilePath) = .invalidJson ∨
         store (checkpointPath logFilePath) = .absent) →
        (resolveStartIndex testNames store logFilePath true noCheckpoint msg).1 = 0 ∧
        (resolveStartIndex testNames store logFilePath true noCheckpoint msg).2.1 =
          ["No checkpoint found, starting from first test.\n\n"]) := by
  refine ⟨rfl, rfl, rfl, ?_⟩
  intro testNames store logFilePath noCheckpoint msg hcase
  have hnone : readCheckpoint store logFilePath = none := by
    unfold readCheckpoint
    rcases hcase with hc | hc | hc <;> rw [hc] <;> rfl
  constructor
  · simp [resolveStartIndex, hnone]
    split <;> rfl
  · simp [resolveStartIndex, hnone]
    split <;> rfl

/-- Witness for C10: resume against an invalid-JSON checkpoint file starts
at index 0. -/
theorem C10_corrupt_checkpoint_like_absent_witness :
    (resolveStartIndex ["a"] (fun _ => CheckpointFile.invalidJson) "run.log" true false
      "not in CSV list").1 = 0 :=
  (C10_corrupt_checkpoint_like_absent.2.2.2 ["a"] (fun _ => CheckpointFile.invalidJson)
    "run.log" false "not in CSV list" (Or.inr (Or.inl rfl))).1

end RunTests
